import Mathlib

/-!
Shallow embedding of the VentureValuator financial model
(src/tools/finance_utils.py and src/agents/financial_agent.py).

Python floats are modelled as exact rationals (ℚ): every arithmetic
operation the code performs (addition, multiplication, division by a
non-zero value, `max`, powers) is modelled by the corresponding exact
operation.  Python lists become `List ℚ`, `None`-or-value results become
`Option`, and dictionaries with a fixed literal key set become Lean
structures together with an explicit key list recording the dictionary
keys in source order.
-/

namespace VentureValuator

/-! ## tools/finance_utils.py -/

/-- Model of `monthly_growth_series(start, growth, months)`:
`series[i] = start * ((1 + growth) ** i)` for `i in range(months)`. -/
def monthly_growth_series (start growth : ℚ) (months : ℕ) : List ℚ :=
  (List.range months).map (fun i => start * (1 + growth) ^ i)

/-- Loop body of `cumulative(values)`: running total accumulation. -/
def cumulativeGo (total : ℚ) : List ℚ → List ℚ
  | [] => []
  | v :: vs => (total + v) :: cumulativeGo (total + v) vs

/-- Model of `cumulative(values)`: cumulative sums, starting from `total = 0.0`. -/
def cumulative (values : List ℚ) : List ℚ :=
  cumulativeGo 0 values

/-- Result dictionary of `cac_ltv` (keys `ltv`, `cac`, `ltv_cac_ratio`). -/
structure CacLtv where
  ltv : ℚ
  cac : ℚ
  ltv_cac_ratio : Option ℚ
  deriving Repr, DecidableEq

/-- Model of `cac_ltv(cac, arpu_monthly, gross_margin, churn_monthly)`:
replaces `churn_monthly` by `0.001` when `churn_monthly <= 0`, computes
`ltv = (arpu_monthly * gross_margin) / churn_monthly`, and
`ratio = ltv / cac if cac else None`. -/
def cac_ltv (cac arpu_monthly gross_margin churn_monthly : ℚ) : CacLtv :=
  let churn : ℚ := if churn_monthly ≤ 0 then 0.001 else churn_monthly
  let ltv : ℚ := (arpu_monthly * gross_margin) / churn
  { ltv := ltv
    cac := cac
    ltv_cac_ratio := if cac = 0 then none else some (ltv / cac) }

/-- Model of `monthly_to_annual(month_values)`: `sum(month_values)`. -/
def monthly_to_annual (month_values : List ℚ) : ℚ :=
  month_values.sum

/-- Result dictionary of `multi_year_financial_table`
(keys `monthly`, `annual`). -/
structure MultiYearTable where
  monthly : List ℚ
  annual : List ℚ
  deriving Repr, DecidableEq

/-- Model of `multi_year_financial_table(start_monthly_revenue, monthly_growth, months=60)`:
monthly values via `monthly_growth_series`, annual values are the sums of
the slices `monthly_values[yr*12:(yr+1)*12]` for `yr in range(5)`. -/
def multi_year_financial_table (start_monthly_revenue monthly_growth : ℚ)
    (months : ℕ := 60) : MultiYearTable :=
  let monthly_values := monthly_growth_series start_monthly_revenue monthly_growth months
  { monthly := monthly_values
    annual := (List.range 5).map (fun yr => ((monthly_values.drop (yr * 12)).take 12).sum) }

/-! ## agents/financial_agent.py : projection, breakeven, run -/

/-- Result dictionary of `FinancialAgent._build_projection` (five series). -/
structure Projection where
  revenue_series : List ℚ
  gross_profit_series : List ℚ
  variable_costs : List ℚ
  total_costs : List ℚ
  net_cashflow : List ℚ
  deriving Repr, DecidableEq

/-- Model of `FinancialAgent._build_projection(start_rev, growth, months, gross_margin, fixed_monthly)`:
`revenue_series = monthly_growth_series(...)`,
`gross_profit_series = [r * gross_margin for r in revenue_series]`,
`variable_costs = [r * (1 - gross_margin) for r in revenue_series]`,
`total_costs = [fixed_monthly + v for v in variable_costs]`,
`net_cashflow = [gp - fixed_monthly for gp in gross_profit_series]`. -/
def build_projection (start_rev growth : ℚ) (months : ℕ)
    (gross_margin fixed_monthly : ℚ) : Projection :=
  let revenue_series := monthly_growth_series start_rev growth months
  let gross_profit_series := revenue_series.map (fun r => r * gross_margin)
  let variable_costs := revenue_series.map (fun r => r * (1 - gross_margin))
  let total_costs := variable_costs.map (fun v => fixed_monthly + v)
  let net_cashflow := gross_profit_series.map (fun gp => gp - fixed_monthly)
  { revenue_series := revenue_series
    gross_profit_series := gross_profit_series
    variable_costs := variable_costs
    total_costs := total_costs
    net_cashflow := net_cashflow }

/-- Loop of `FinancialAgent._breakeven_month`: `enumerate` scan, position
argument `i` is the 0-based index of the head of the remaining list. -/
def breakevenGo (i : ℕ) : List ℚ → Option ℕ
  | [] => none
  | v :: vs => if 0 ≤ v then some (i + 1) else breakevenGo (i + 1) vs

/-- Model of `FinancialAgent._breakeven_month(cumulative_net)`: first `i` with
`cumulative_net[i] >= 0` returns `i + 1`, else `None`. -/
def breakeven_month (cumulative_net : List ℚ) : Option ℕ :=
  breakevenGo 0 cumulative_net

/-- The resolved model inputs (dictionary built by `_infer_inputs`, possibly
updated by overrides, read by `FinancialAgent.run`). -/
structure Inputs where
  revenue_monthly : ℚ
  growth_monthly : ℚ
  mau : Option ℤ
  gross_margin : ℚ
  cac : ℚ
  churn_monthly : ℚ
  fixed_monthly_costs : ℚ
  arpu_monthly : ℚ
  deriving Repr, DecidableEq

/-- The `yearly_net` sub-dictionary of a scenario record. -/
structure YearlyNet where
  year1 : ℚ
  year2 : Option ℚ
  deriving Repr, DecidableEq

/-- One scenario record: the dictionary assigned to
`out["scenarios"][name]` in `FinancialAgent.run`. -/
structure ScenarioRecord where
  growth_monthly : ℚ
  revenue_series : List ℚ
  gross_profit_series : List ℚ
  total_costs : List ℚ
  net_cashflow : List ℚ
  cumulative_net_cashflow : List ℚ
  breakeven_month : Option ℕ
  yearly_net : YearlyNet
  cac_ltv : CacLtv
  deriving Repr, DecidableEq

/-- The literal keys of the scenario-record dictionary built in
`FinancialAgent.run` (`out["scenarios"][name] = {...}`), in source order. -/
def scenarioRecordKeys : List String :=
  ["growth_monthly", "revenue_series", "gross_profit_series", "total_costs",
   "net_cashflow", "cumulative_net_cashflow", "breakeven_month", "yearly_net",
   "cac_ltv"]

/-- The three scenario dictionary entries built in `FinancialAgent.run`. -/
structure Scenarios where
  conservative : ScenarioRecord
  base : ScenarioRecord
  optimistic : ScenarioRecord
  deriving Repr, DecidableEq

/-- The literal keys of the `scenarios` dictionary in `FinancialAgent.run`,
in source order. -/
def scenariosKeys : List String :=
  ["conservative", "base", "optimistic"]

/-- The `out["five_year_projection"]` dictionary. -/
structure FiveYearProjection where
  annual_revenue : List ℚ
  monthly_revenue : List ℚ
  deriving Repr, DecidableEq

/-- The `out["summary"]` dictionary. -/
structure Summary where
  revenue_monthly_start : ℚ
  arpu_monthly : ℚ
  cac : ℚ
  gross_margin : ℚ
  deriving Repr, DecidableEq

/-- The result of `FinancialAgent.run` (the parts of `out` that carry the
numeric model; the optional LLM explanation is outside the model). -/
structure RunOutput where
  inputs : Inputs
  months : ℕ
  scenarios : Scenarios
  summary : Summary
  five_year_projection : FiveYearProjection
  deriving Repr, DecidableEq

/-- Body of the per-scenario loop in `FinancialAgent.run` for growth rate `g`:
builds the projection from the shared inputs, the cumulative net cashflow,
the breakeven month, the yearly nets (`[:12]` and `[12:24]`, the latter only
when `months >= 24`), and the scenario-independent `cac_ltv` record. -/
def run_scenario (inputs : Inputs) (months : ℕ) (g : ℚ) : ScenarioRecord :=
  let proj := build_projection inputs.revenue_monthly g months
    inputs.gross_margin inputs.fixed_monthly_costs
  let cum_net := cumulative proj.net_cashflow
  let breakeven := breakeven_month cum_net
  let year1 := monthly_to_annual (proj.net_cashflow.take 12)
  let year2 : Option ℚ :=
    if 24 ≤ months then some (monthly_to_annual ((proj.net_cashflow.drop 12).take 12))
    else none
  let cac_ltv_res := cac_ltv inputs.cac inputs.arpu_monthly
    inputs.gross_margin inputs.churn_monthly
  { growth_monthly := g
    revenue_series := proj.revenue_series
    gross_profit_series := proj.gross_profit_series
    total_costs := proj.total_costs
    net_cashflow := proj.net_cashflow
    cumulative_net_cashflow := cum_net
    breakeven_month := breakeven
    yearly_net := { year1 := year1, year2 := year2 }
    cac_ltv := cac_ltv_res }

/-- Model of `FinancialAgent.run` from the point where the inputs dictionary is
resolved (after `_infer_inputs` and the overrides update): derives the
three scenario growth rates from `base_growth = inputs["growth_monthly"]`,
runs the per-scenario loop for each, and builds the 60-month five-year
projection from the base (non-scenario) growth rate. -/
def run (inputs : Inputs) (months : ℕ) : RunOutput :=
  let base_growth := inputs.growth_monthly
  let g_conservative : ℚ := max (-0.02) (base_growth * 0.5)
  let g_base : ℚ := base_growth
  let g_optimistic : ℚ := base_growth * 1.5
  let five_year := multi_year_financial_table inputs.revenue_monthly
    inputs.growth_monthly 60
  { inputs := inputs
    months := months
    scenarios :=
      { conservative := run_scenario inputs months g_conservative
        base := run_scenario inputs months g_base
        optimistic := run_scenario inputs months g_optimistic }
    summary :=
      { revenue_monthly_start := inputs.revenue_monthly
        arpu_monthly := inputs.arpu_monthly
        cac := inputs.cac
        gross_margin := inputs.gross_margin }
    five_year_projection :=
      { annual_revenue := five_year.annual
        monthly_revenue := five_year.monthly } }

/-! ## Python value model and the metrics-bag parsers
(`_parse_money_to_float` and `FinancialAgent._infer_inputs`)

Strings are modelled as `List Char`; a Python value stored in the metrics
bag is `None`, a string, an int, or a float (floats again as exact
rationals).  A dictionary lookup that misses is modelled as `PVal.vnone`,
matching `dict.get`'s `None` result. -/

/-- Loosely-typed Python value held in the `notable_metrics` bag. -/
inductive PVal where
  | vnone : PVal
  | vstr : List Char → PVal
  | vint : ℤ → PVal
  | vfloat : ℚ → PVal
  deriving Repr, DecidableEq

/-- Python truthiness of a `PVal` (`None`, `""`, `0`, `0.0` are falsy). -/
def PVal.truthy : PVal → Bool
  | .vnone => false
  | .vstr s => !s.isEmpty
  | .vint n => n != 0
  | .vfloat q => q != 0

/-- Python `a or b`. -/
def pyOr (a b : PVal) : PVal :=
  if a.truthy then a else b

/-- Characters stripped by Python `str.strip()` (ASCII whitespace). -/
def pySpace (c : Char) : Bool :=
  c = ' ' || c = '\t' || c = '\n' || c = '\r' || c = '\x0b' || c = '\x0c'

/-- Python `str.strip()`. -/
def pyStrip (s : List Char) : List Char :=
  ((s.dropWhile pySpace).reverse.dropWhile pySpace).reverse

/-- Python `str.replace("rs", "")`: left-to-right non-overlapping removal
of the substring `rs`. -/
def removeRS : List Char → List Char
  | 'r' :: 's' :: rest => removeRS rest
  | c :: rest => c :: removeRS rest
  | [] => []

/-- Python `needle in haystack` for a substring pattern. -/
def containsSub (p : List Char) : List Char → Bool
  | [] => p.isEmpty
  | c :: rest => p.isPrefixOf (c :: rest) || containsSub p rest

/-- Python `re.search(r"\d+l", s)` viewed as a boolean: some digit is
immediately followed by the letter `l`. -/
def hasDigitThenL : List Char → Bool
  | c :: d :: rest => (c.isDigit && d == 'l') || hasDigitThenL (d :: rest)
  | _ => false

/-- Character class `[\d\.]` of the money regex. -/
def isNumChar (c : Char) : Bool :=
  c.isDigit || c == '.'

/-- First maximal run of characters satisfying `p`
(`re.findall(...)[0]`, `None` when the regex finds nothing). -/
def firstTokenBy (p : Char → Bool) (s : List Char) : Option (List Char) :=
  match s.dropWhile (fun c => !p c) with
  | [] => none
  | c :: cs => some ((c :: cs).takeWhile p)

/-- First match of `re.findall(r"[\d\.]+", s)`. -/
def firstNumToken (s : List Char) : Option (List Char) :=
  firstTokenBy isNumChar s

/-- Value of a decimal digit string (most significant first). -/
def digitsToNat (ds : List Char) : ℕ :=
  ds.foldl (fun acc c => 10 * acc + (c.toNat - 48)) 0

/-- Python `float()` applied to a token of digits and dots: succeeds iff
the token has at most one dot and at least one digit (`float(".")` and
`float("1.2.3")` raise). -/
def floatOfToken (t : List Char) : Option ℚ :=
  if (t.all (fun c => c.isDigit || c == '.') && t.count '.' ≤ 1) && t.any Char.isDigit then
    let ip := t.takeWhile (fun c => c != '.')
    let fp := (t.dropWhile (fun c => c != '.')).drop 1
    some ((digitsToNat ip : ℚ) + (digitsToNat fp : ℚ) / (10 : ℚ) ^ fp.length)
  else none

/-- Decimal digits of an integer (`str(int)`). -/
def intRepr (n : ℤ) : List Char :=
  if n < 0 then '-' :: Nat.toDigits 10 n.natAbs else Nat.toDigits 10 n.natAbs

/-- Smallest exponent `e` with `d` dividing `10 ^ e`, searched up to 400
(every rational that models a Python float has such an exponent). -/
def pow10Exp (d : ℕ) : Option ℕ :=
  (List.range 400).find? (fun e => decide (d ∣ 10 ^ e))

/-- Decimal representation of a non-negative rational that models a Python
float (`str(float)` in the exact-rational idealization: the model's floats
are finite decimals, written in plain positional form; a rational with no
finite decimal expansion, unreachable from float values, is written as a
fraction). -/
def decimalReprNonneg (q : ℚ) : List Char :=
  match pow10Exp q.den with
  | some e =>
    let n := q.num.natAbs * 10 ^ e / q.den
    let ds := Nat.toDigits 10 n
    let ds := if ds.length ≤ e then List.replicate (e + 1 - ds.length) '0' ++ ds else ds
    if e = 0 then ds ++ ['.', '0'] else ds.take (ds.length - e) ++ '.' :: ds.drop (ds.length - e)
  | none => Nat.toDigits 10 q.num.natAbs ++ '/' :: Nat.toDigits 10 q.den

/-- Model of `str()` applied to a float value. -/
def decimalRepr (q : ℚ) : List Char :=
  if q < 0 then '-' :: decimalReprNonneg (-q) else decimalReprNonneg q

/-- Model of Python `str()` on a bag value. -/
def pyStr : PVal → List Char
  | .vnone => ['N', 'o', 'n', 'e']
  | .vstr s => s
  | .vint n => intRepr n
  | .vfloat q => decimalRepr q

/-- Model of `_parse_money_to_float(s)`: returns `None` for falsy input;
otherwise lowercases, removes commas, strips, removes the rupee sign and
the substring `rs`, strips again, and then applies the suffix rules of the
source in order: `b` (with a digit present) scales by `1e9`; else `m`
(without `lakh`) scales by `1e6`; else `lakh`, or an `l` directly after
digits, scales by `1e5`; else the bare first number is returned.  Every
exception path of the `try` block (no regex match, bad `float()` token)
returns `None`. -/
def _parse_money_to_float (v : PVal) : Option ℚ :=
  if !v.truthy then none
  else
    let s0 := (pyStr v).map Char.toLower
    let s1 := s0.filter (fun c => c != ',')
    let s2 := pyStrip s1
    let s3 := s2.filter (fun c => c != '₹')
    let s4 := removeRS s3
    let s := pyStrip s4
    if s.contains 'b' && s.any Char.isDigit then
      match firstNumToken s with
      | none => none
      | some t => (floatOfToken t).map (fun x => x * 1000000000)
    else if s.contains 'm' && !containsSub ['l', 'a', 'k', 'h'] s then
      match firstNumToken s with
      | none => none
      | some t => (floatOfToken t).map (fun x => x * 1000000)
    else if containsSub ['l', 'a', 'k', 'h'] s || (s.contains 'l' && hasDigitThenL s) then
      match firstNumToken s with
      | none => none
      | some t => (floatOfToken t).map (fun x => x * 100000)
    else
      match firstNumToken s with
      | none => none
      | some t => floatOfToken t

/-- Underscore well-formedness of a Python numeric literal: every
underscore sits between two digits. -/
def underscoresOk : List Char → Bool
  | a :: '_' :: b :: rest => (a.isDigit && b.isDigit) && underscoresOk (b :: rest)
  | '_' :: _ => false
  | _ :: rest => underscoresOk rest
  | [] => true

/-- Optional leading sign of a numeric literal: `(negative?, rest)`. -/
def splitSign : List Char → Bool × List Char
  | '+' :: rest => (false, rest)
  | '-' :: rest => (true, rest)
  | s => (false, s)

/-- Split a numeric literal at the first `e`/`E` (mantissa, exponent). -/
def splitAtE : List Char → List Char × Option (List Char)
  | [] => ([], none)
  | c :: rest =>
    if c == 'e' || c == 'E' then ([], some rest)
    else
      let p := splitAtE rest
      (c :: p.1, p.2)

/-- Exponent part of a float literal: optional sign then nonempty digits. -/
def expVal : List Char → Option ℤ
  | '+' :: ds => if ds ≠ [] ∧ ds.all Char.isDigit then some (digitsToNat ds : ℤ) else none
  | '-' :: ds => if ds ≠ [] ∧ ds.all Char.isDigit then some (-(digitsToNat ds : ℤ)) else none
  | ds => if ds ≠ [] ∧ ds.all Char.isDigit then some (digitsToNat ds : ℤ) else none

/-- Model of Python `float(s)` on an arbitrary string: strip whitespace,
validate and drop digit-group underscores, optional sign, decimal mantissa,
optional exponent.  `None` models a raised `ValueError`.  The non-finite
literals `inf`/`nan`, which have no exact-rational counterpart, are outside
the model. -/
def pyFloatChars (s : List Char) : Option ℚ :=
  let t0 := pyStrip s
  if !underscoresOk t0 then none
  else
    let t1 := t0.filter (fun c => c != '_')
    let sgn := splitSign t1
    let p := splitAtE sgn.2
    match floatOfToken p.1 with
    | none => none
    | some mv =>
      let signed := if sgn.1 then -mv else mv
      match p.2 with
      | none => some signed
      | some e =>
        match expVal e with
        | none => none
        | some ev => some (signed * (10 : ℚ) ^ ev)

/-- Model of the MAU branch of `_infer_inputs`: only string values are
scanned; `+` signs are removed, the first `[\d,]+` run is taken, commas are
dropped, and `int()` succeeds iff a digit remains (`int("")` raises and is
caught, leaving `None`). -/
def parseMau : PVal → Option ℤ
  | .vstr s =>
    let s2 := s.filter (fun c => c != '+')
    match firstTokenBy (fun c => c.isDigit || c == ',') s2 with
    | none => none
    | some t =>
      let d := t.filter (fun c => c != ',')
      if d.isEmpty then none else some (digitsToNat d : ℤ)
  | _ => none

/-- Revenue field of `_infer_inputs`: parse the money string; `if not
revenue_monthly:` replaces both `None` and `0.0` by the fallback
`100000.0`. -/
def infer_revenue (nm : String → PVal) : ℚ :=
  match _parse_money_to_float (pyOr (nm "Last month revenue") (PVal.vstr [])) with
  | some r => if r = 0 then 100000.0 else r
  | none => 100000.0

/-- Growth field of `_infer_inputs`: default `0.10`; a string containing
`%` whose remainder parses as a float is divided by `100`; a numeric value
is used directly (but a falsy `0`/`0.0` was already coerced to `""` by the
`or ""` default and so keeps `0.10`). -/
def infer_growth (nm : String → PVal) : ℚ :=
  match pyOr (nm "Month-over-month growth") (PVal.vstr []) with
  | .vstr s =>
    if s.contains '%' then
      match pyFloatChars (s.filter (fun c => c != '%')) with
      | some x => x / 100
      | none => 0.10
    else 0.10
  | .vint n => (n : ℚ)
  | .vfloat q => q
  | .vnone => 0.10

/-- MAU field of `_infer_inputs`. -/
def infer_mau (nm : String → PVal) : Option ℤ :=
  parseMau (pyOr (nm "Monthly active users") (PVal.vstr []))

/-- CAC field of `_infer_inputs`: `max(50.0, 3 * arpu)` when both `mau` and
the revenue are truthy (with `arpu = revenue / max(1, mau)`), else the
fallback `150.0`. -/
def infer_cac (nm : String → PVal) : ℚ :=
  match infer_mau nm with
  | some n =>
    if n ≠ 0 ∧ infer_revenue nm ≠ 0 then
      max 50.0 (3 * (infer_revenue nm / ((max 1 n : ℤ) : ℚ)))
    else 150.0
  | none => 150.0

/-- ARPU field of `_infer_inputs`: `revenue / max(1, mau)` when both are
truthy, else the fallback `250.0`. -/
def infer_arpu (nm : String → PVal) : ℚ :=
  match infer_mau nm with
  | some n =>
    if n ≠ 0 ∧ infer_revenue nm ≠ 0 then infer_revenue nm / ((max 1 n : ℤ) : ℚ)
    else 250.0
  | none => 250.0

/-- Model of `FinancialAgent._infer_inputs(extracted)`.  The argument `nm`
is the `notable_metrics` mapping (`nm k = PVal.vnone` for a missing key; an
absent `notable_metrics` is the everywhere-`vnone` mapping, matching
`extracted.get("notable_metrics", {})`).  The fixed policy constants are
`gross_margin = 0.25`, `churn_monthly = 0.05`,
`fixed_monthly_costs = 800000.0`. -/
def infer_inputs (nm : String → PVal) : Inputs :=
  { revenue_monthly := infer_revenue nm
    growth_monthly := infer_growth nm
    mau := infer_mau nm
    gross_margin := 0.25
    cac := infer_cac nm
    churn_monthly := 0.05
    fixed_monthly_costs := 800000.0
    arpu_monthly := infer_arpu nm }

/-! ## Helper lemmas -/

attribute [local semireducible] Rat.ofScientific Rat.mul Rat.add Rat.sub Rat.inv

lemma monthly_growth_series_length (start growth : ℚ) (months : ℕ) :
    (monthly_growth_series start growth months).length = months := by
  simp [monthly_growth_series]

lemma monthly_growth_series_getD (start growth : ℚ) (months : ℕ) (i : ℕ)
    (hi : i < months) :
    (monthly_growth_series start growth months).getD i 0 = start * (1 + growth) ^ i := by
  rw [List.getD_eq_getElem _ _ (by simpa [monthly_growth_series] using hi)]
  simp [monthly_growth_series]

lemma cumulativeGo_eq (t : ℚ) (l : List ℚ) :
    cumulativeGo t l = (List.range l.length).map (fun i => t + (l.take (i + 1)).sum) := by
  induction l generalizing t with
  | nil => simp [cumulativeGo]
  | cons v vs ih =>
    rw [cumulativeGo, ih (t + v)]
    simp only [List.length_cons, List.range_succ_eq_map, List.map_cons, List.map_map]
    congr 1
    · simp
    · refine List.map_congr_left ?_
      intro i _
      simp [Function.comp, List.take_succ_cons, add_assoc]

lemma cumulative_eq (l : List ℚ) :
    cumulative l = (List.range l.length).map (fun i => (l.take (i + 1)).sum) := by
  rw [cumulative, cumulativeGo_eq]
  simp

lemma cumulative_length (l : List ℚ) : (cumulative l).length = l.length := by
  rw [cumulative_eq]; simp

lemma getD_map_range (f : ℕ → ℚ) (n y : ℕ) (hy : y < n) :
    ((List.range n).map f).getD y 0 = f y := by
  rw [List.getD_eq_getElem _ _ (by simpa using hy)]
  simp

lemma breakevenGo_eq_none (k : ℕ) (l : List ℚ) :
    breakevenGo k l = none ↔ ∀ v ∈ l, v < 0 := by
  induction l generalizing k with
  | nil => simp [breakevenGo]
  | cons v vs ih =>
    rw [breakevenGo]
    by_cases hv : 0 ≤ v
    · simp [hv, not_lt.mpr hv]
    · simp [hv, ih (k + 1), not_le.mp hv]

lemma breakevenGo_eq_some (k : ℕ) (l : List ℚ) (m : ℕ) :
    breakevenGo k l = some m ↔
      ∃ i, i < l.length ∧ m = k + i + 1 ∧ 0 ≤ l.getD i 0 ∧
        ∀ j, j < i → l.getD j 0 < 0 := by
  induction l generalizing k m with
  | nil => simp [breakevenGo]
  | cons v vs ih =>
    rw [breakevenGo]
    by_cases hv : 0 ≤ v
    · simp only [hv, if_pos, Option.some_inj]
      constructor
      · rintro rfl
        exact ⟨0, by simp, by simp, by simpa using hv, by simp⟩
      · rintro ⟨i, _, rfl, _, hall⟩
        rcases Nat.eq_zero_or_pos i with rfl | hpos
        · rfl
        · exact absurd (by simpa using hall 0 hpos) (not_lt.mpr hv)
    · rw [if_neg hv, ih (k + 1)]
      constructor
      · rintro ⟨i, hi, rfl, hge, hall⟩
        refine ⟨i + 1, by simpa using hi, by omega, by simpa using hge, ?_⟩
        intro j hj
        cases j with
        | zero => simpa using not_le.mp hv
        | succ j => simpa using hall j (by omega)
      · rintro ⟨i, hi, rfl, hge, hall⟩
        cases i with
        | zero => exact absurd (by simpa using hge) hv
        | succ i =>
          exact ⟨i, by simpa using hi, by omega, by simpa using hge,
            fun j hj => by simpa using hall (j + 1) (by omega)⟩

/-! ## Claims C1 - C6, C10 -/

/-- C1: for every start revenue, growth rate, month count, gross margin and
fixed monthly cost, `_build_projection` returns five sequences of length
`months` with `revenue[i] = start * (1 + growth) ^ i`,
`gross_profit[i] = revenue[i] * gross_margin`,
`variable_costs[i] = revenue[i] * (1 - gross_margin)`,
`total_costs[i] = fixed + variable_costs[i]`, and
`net_cashflow[i] = gross_profit[i] - fixed` (total costs are not an input
to net cashflow). -/
theorem claim_C1_monthly_series (start growth gross_margin fixed : ℚ) (n : ℕ)
    (hg : -1 < growth) (p : Projection)
    (hp : p = build_projection start growth n gross_margin fixed) :
    p.revenue_series.length = n ∧
    p.gross_profit_series.length = n ∧
    p.variable_costs.length = n ∧
    p.total_costs.length = n ∧
    p.net_cashflow.length = n ∧
    ∀ i, i < n →
      p.revenue_series.getD i 0 = start * (1 + growth) ^ i ∧
      p.gross_profit_series.getD i 0 = p.revenue_series.getD i 0 * gross_margin ∧
      p.variable_costs.getD i 0 = p.revenue_series.getD i 0 * (1 - gross_margin) ∧
      p.total_costs.getD i 0 = fixed + p.variable_costs.getD i 0 ∧
      p.net_cashflow.getD i 0 = p.gross_profit_series.getD i 0 - fixed := by
  subst hp
  have hlen : (monthly_growth_series start growth n).length = n :=
    monthly_growth_series_length start growth n
  refine ⟨by simp [build_projection, hlen], by simp [build_projection, hlen],
    by simp [build_projection, hlen], by simp [build_projection, hlen],
    by simp [build_projection, hlen], ?_⟩
  intro i hi
  have h1 : i < (monthly_growth_series start growth n).length := by rw [hlen]; exact hi
  refine ⟨monthly_growth_series_getD start growth n i hi, ?_, ?_, ?_, ?_⟩
  · rw [build_projection]
    rw [List.getD_eq_getElem _ _ (by simpa using h1), List.getD_eq_getElem _ _ h1]
    simp
  · rw [build_projection]
    rw [List.getD_eq_getElem _ _ (by simpa using h1), List.getD_eq_getElem _ _ h1]
    simp
  · rw [build_projection]
    rw [List.getD_eq_getElem _ _ (by simpa using h1), List.getD_eq_getElem _ _ (by simpa using h1)]
    simp
  · rw [build_projection]
    rw [List.getD_eq_getElem _ _ (by simpa using h1), List.getD_eq_getElem _ _ (by simpa using h1)]
    simp

/-- Witness for C1 at `start = 2`, `growth = 1`, `margin = 1/4`, `fixed = 5`,
`n = 3`, index `i = 2`. -/
theorem claim_C1_witness :
    (build_projection 2 1 3 (1/4) 5).revenue_series.length = 3 ∧
    (build_projection 2 1 3 (1/4) 5).revenue_series.getD 2 0 = 8 ∧
    (build_projection 2 1 3 (1/4) 5).net_cashflow.getD 2 0 = 8 * (1/4) - 5 := by
  have h := claim_C1_monthly_series 2 1 (1/4) 5 3 (by norm_num)
    (build_projection 2 1 3 (1/4) 5) rfl
  have h2 := h.2.2.2.2.2 2 (by norm_num)
  refine ⟨h.1, ?_, ?_⟩
  · rw [h2.1]; norm_num
  · rw [h2.2.2.2.2, h2.2.1, h2.1]; norm_num

/-- C2: `_breakeven_month` returns `None` exactly when every element of the
cumulative sequence is negative, and returns `some m` exactly when `m = i + 1`
for the first index `i` whose element is `>= 0`. -/
theorem claim_C2_breakeven (cum : List ℚ) (m : ℕ) :
    (breakeven_month cum = none ↔ ∀ v ∈ cum, v < 0) ∧
    (breakeven_month cum = some m ↔
      ∃ i, i < cum.length ∧ m = i + 1 ∧ 0 ≤ cum.getD i 0 ∧
        ∀ j, j < i → cum.getD j 0 < 0) := by
  constructor
  · exact breakevenGo_eq_none 0 cum
  · rw [breakeven_month, breakevenGo_eq_some]
    simp

/-- C3: `run` produces exactly the three scenarios `conservative`, `base`,
`optimistic`, with growth rates `max(-0.02, g * 0.5)`, `g`, `g * 1.5`, and
each scenario record is a function of the shared inputs and that scenario's
growth rate alone. -/
theorem claim_C3_scenario_engine (inputs : Inputs) (months : ℕ)
    (out : RunOutput) (hout : out = run inputs months) :
    scenariosKeys = ["conservative", "base", "optimistic"] ∧
    out.scenarios.conservative.growth_monthly =
      max (-0.02) (inputs.growth_monthly * 0.5) ∧
    out.scenarios.base.growth_monthly = inputs.growth_monthly ∧
    out.scenarios.optimistic.growth_monthly = inputs.growth_monthly * 1.5 ∧
    out.scenarios.conservative =
      run_scenario inputs months (max (-0.02) (inputs.growth_monthly * 0.5)) ∧
    out.scenarios.base = run_scenario inputs months inputs.growth_monthly ∧
    out.scenarios.optimistic =
      run_scenario inputs months (inputs.growth_monthly * 1.5) := by
  subst hout
  exact ⟨rfl, rfl, rfl, rfl, rfl, rfl, rfl⟩

/-- Witness for C3 on concrete inputs. -/
theorem claim_C3_witness :
    (run ⟨100000, 1/10, none, 1/4, 150, 1/20, 800000, 250⟩ 24).scenarios.base.growth_monthly
      = 1/10 := by
  exact (claim_C3_scenario_engine ⟨100000, 1/10, none, 1/4, 150, 1/20, 800000, 250⟩
    24 _ rfl).2.2.1

/-- The spec-claimed unit-economics calculator: churn clamped to a minimum
of `0.001` (`max`) before division, as the claim words it. -/
def cac_ltv_claimed (cac arpu_monthly gross_margin churn_monthly : ℚ) : CacLtv :=
  let churn : ℚ := max 0.001 churn_monthly
  let ltv : ℚ := (arpu_monthly * gross_margin) / churn
  { ltv := ltv
    cac := cac
    ltv_cac_ratio := if cac = 0 then none else some (ltv / cac) }

/-- C4 counterexample: at `churn = 0.0005` (positive but below `0.001`) the
code divides by the raw `0.0005` (ltv `2000`), not by a clamped `0.001`
(ltv `1000`): the effective churn IS below `0.001`. -/
theorem claim_C4_cex :
    (cac_ltv 1 1 1 0.0005).ltv = 2000 ∧
    (cac_ltv_claimed 1 1 1 0.0005).ltv = 1000 ∧
    (cac_ltv 1 1 1 0.0005).ltv ≠ (cac_ltv_claimed 1 1 1 0.0005).ltv := by
  refine ⟨?_, ?_, ?_⟩ <;> norm_num [cac_ltv, cac_ltv_claimed]

/-- C4 (amended): churn is replaced by `0.001` only when `churn <= 0`; for
positive churn the raw value is used (even below `0.001`);
`ltv = (arpu * margin) / effective_churn`; the ratio is `None` iff
`cac == 0`, otherwise `ltv / cac`; no input raises (the function is total). -/
theorem claim_C4_unit_economics (cac arpu margin churn : ℚ) :
    (cac_ltv cac arpu margin churn).ltv =
      (arpu * margin) / (if churn ≤ 0 then (0.001 : ℚ) else churn) ∧
    (0 < churn → (cac_ltv cac arpu margin churn).ltv = (arpu * margin) / churn) ∧
    (churn ≤ 0 → (cac_ltv cac arpu margin churn).ltv = (arpu * margin) / 0.001) ∧
    ( CacLtv.ltv_cac_ratio (cac_ltv cac arpu margin churn) = none ↔ cac = 0) ∧
    (cac ≠ 0 → CacLtv.ltv_cac_ratio (cac_ltv cac arpu margin churn) =
      some ((cac_ltv cac arpu margin churn).ltv / cac)) ∧
    (cac_ltv cac arpu margin churn).cac = cac := by
  refine ⟨rfl, ?_, ?_, ?_, ?_, rfl⟩
  · intro h
    simp [cac_ltv, not_le.mpr h]
  · intro h
    simp [cac_ltv, h]
  · by_cases hc : cac = 0 <;> simp [cac_ltv, hc]
  · intro hc
    simp [cac_ltv, hc]

/-- Witness for C4 (amended) at `cac = 2`, `arpu = 10`, `margin = 1/2`,
`churn = 1/20`. -/
theorem claim_C4_witness :
    (cac_ltv 2 10 (1/2) (1/20)).ltv = (10 * (1/2) : ℚ) / (1/20) ∧
    CacLtv.ltv_cac_ratio (cac_ltv 2 10 (1/2) (1/20)) =
      some ((cac_ltv 2 10 (1/2) (1/20)).ltv / 2) := by
  have h := claim_C4_unit_economics 2 10 (1/2) (1/20)
  exact ⟨h.2.1 (by norm_num), h.2.2.2.2.1 (by norm_num)⟩

/-- C5 counterexample: the scenario-record dictionary built in
`FinancialAgent.run` has no `variable_costs` key (the series is computed in
`_build_projection` but dropped from the record). -/
theorem claim_C5_cex : "variable_costs" ∉ scenarioRecordKeys := by
  decide

/-- C5 (amended): in every scenario record, the present series
`revenue_series`, `gross_profit_series`, `total_costs`, `net_cashflow`, and
`cumulative_net_cashflow` all have length `months`, and
`cumulative_net_cashflow[i] = sum(net_cashflow[0..i])` (`variable_costs` is
not part of the record). -/
theorem claim_C5_scenario_record (inputs : Inputs) (months : ℕ)
    (out : RunOutput) (hout : out = run inputs months) :
    ∀ s ∈ [out.scenarios.conservative, out.scenarios.base, out.scenarios.optimistic],
      s.revenue_series.length = months ∧
      s.gross_profit_series.length = months ∧
      s.total_costs.length = months ∧
      s.net_cashflow.length = months ∧
      s.cumulative_net_cashflow.length = months ∧
      s.cumulative_net_cashflow =
        (List.range months).map (fun i => (s.net_cashflow.take (i + 1)).sum) := by
  subst hout
  have key : ∀ g : ℚ, ∀ s, s = run_scenario inputs months g →
      s.revenue_series.length = months ∧
      s.gross_profit_series.length = months ∧
      s.total_costs.length = months ∧
      s.net_cashflow.length = months ∧
      s.cumulative_net_cashflow.length = months ∧
      s.cumulative_net_cashflow =
        (List.range months).map (fun i => (s.net_cashflow.take (i + 1)).sum) := by
    intro g s hs
    subst hs
    have hnet : (run_scenario inputs months g).net_cashflow.length = months := by
      simp [run_scenario, build_projection, monthly_growth_series_length]
    have hcum : (run_scenario inputs months g).cumulative_net_cashflow =
        cumulative ((run_scenario inputs months g).net_cashflow) := rfl
    refine ⟨?_, ?_, ?_, hnet, ?_, ?_⟩
    · simp [run_scenario, build_projection, monthly_growth_series_length]
    · simp [run_scenario, build_projection, monthly_growth_series_length]
    · simp [run_scenario, build_projection, monthly_growth_series_length]
    · rw [hcum, cumulative_length, hnet]
    · rw [hcum, cumulative_eq, hnet]
  intro s hs
  simp only [List.mem_cons, List.not_mem_nil, or_false] at hs
  rcases hs with rfl | rfl | rfl
  · exact key _ _ rfl
  · exact key _ _ rfl
  · exact key _ _ rfl

/-- Witness for C5 (amended) on concrete inputs with a 2-month horizon. -/
theorem claim_C5_witness :
    ((run ⟨100, 1/10, none, 1/4, 150, 1/20, 10, 250⟩ 2).scenarios.base).cumulative_net_cashflow =
      (List.range 2).map
        (fun i => (((run ⟨100, 1/10, none, 1/4, 150, 1/20, 10, 250⟩ 2).scenarios.base).net_cashflow.take (i + 1)).sum) := by
  exact (claim_C5_scenario_record ⟨100, 1/10, none, 1/4, 150, 1/20, 10, 250⟩ 2 _ rfl
    _ (by simp)).2.2.2.2.2

/-- C6: at the default 60-month horizon, `multi_year_financial_table` returns
the 60-month `monthly_growth_series` at the single base growth rate, and an
annual sequence of length 5 with `annual[y] = sum(monthly[y*12 : y*12+12])`;
`run` feeds it the base (non-scenario) growth rate. -/
theorem claim_C6_multi_year (start g : ℚ) (inputs : Inputs) (months : ℕ) :
    (multi_year_financial_table start g 60).monthly = monthly_growth_series start g 60 ∧
    (multi_year_financial_table start g 60).monthly.length = 60 ∧
    (multi_year_financial_table start g 60).annual.length = 5 ∧
    (∀ y, y < 5 → (multi_year_financial_table start g 60).annual.getD y 0 =
      (((multi_year_financial_table start g 60).monthly.drop (y * 12)).take 12).sum) ∧
    (run inputs months).five_year_projection.monthly_revenue =
      monthly_growth_series inputs.revenue_monthly inputs.growth_monthly 60 ∧
    (run inputs months).five_year_projection.annual_revenue =
      (multi_year_financial_table inputs.revenue_monthly inputs.growth_monthly 60).annual := by
  refine ⟨rfl, ?_, ?_, ?_, rfl, rfl⟩
  · simp [multi_year_financial_table, monthly_growth_series_length]
  · simp [multi_year_financial_table]
  · intro y hy
    exact getD_map_range (fun yr =>
      (((monthly_growth_series start g 60).drop (yr * 12)).take 12).sum) 5 y hy

/-- Witness for C6 at `start = 1`, `g = 0`, year `y = 4`. -/
theorem claim_C6_witness :
    (multi_year_financial_table 1 0 60).annual.getD 4 0 =
      (((multi_year_financial_table 1 0 60).monthly.drop 48).take 12).sum := by
  exact (claim_C6_multi_year 1 0 ⟨1, 0, none, 0, 0, 0, 0, 0⟩ 24).2.2.2.1 4 (by norm_num)

/-! ## Claims C7 - C9 (input inference and money parsing) -/

lemma pyOr_vnone (d : PVal) : pyOr PVal.vnone d = d := rfl

lemma pyOr_vstr (s : List Char) : pyOr (PVal.vstr s) (PVal.vstr []) = PVal.vstr s := by
  cases s with
  | nil => rfl
  | cons c cs => rfl

/-- C7: for every metrics bag (the `notable_metrics` mapping, `vnone` for a
missing key) with all three revenue/growth/MAU fields missing or unparsable
strings, `_infer_inputs` raises no exception (the model is a total
function) and yields exactly the fallback constants
`revenue_monthly = 100000.0`, `growth_monthly = 0.10`, `mau = None`,
`arpu_monthly = 250.0`, `cac = 150.0`, together with the policy constants
`gross_margin = 0.25`, `churn_monthly = 0.05`,
`fixed_monthly_costs = 800000.0`. -/
theorem claim_C7_fallbacks (nm : String → PVal)
    (hrev : nm "Last month revenue" = PVal.vnone ∨
      ∃ s, nm "Last month revenue" = PVal.vstr s ∧
        _parse_money_to_float (PVal.vstr s) = none)
    (hmom : nm "Month-over-month growth" = PVal.vnone ∨
      ∃ s, nm "Month-over-month growth" = PVal.vstr s ∧
        (s.contains '%' = true → pyFloatChars (s.filter (fun c => c != '%')) = none))
    (hmau : nm "Monthly active users" = PVal.vnone ∨
      ∃ s, nm "Monthly active users" = PVal.vstr s ∧ parseMau (PVal.vstr s) = none) :
    infer_inputs nm =
      { revenue_monthly := 100000.0, growth_monthly := 0.10, mau := none,
        gross_margin := 0.25, cac := 150.0, churn_monthly := 0.05,
        fixed_monthly_costs := 800000.0, arpu_monthly := 250.0 } := by
  have hrev' : infer_revenue nm = 100000.0 := by
    rcases hrev with h | ⟨s, hs, hp⟩
    · simp only [infer_revenue, h, pyOr_vnone]
      rfl
    · simp only [infer_revenue, hs, pyOr_vstr, hp]
  have hmau' : infer_mau nm = none := by
    rcases hmau with h | ⟨s, hs, hp⟩
    · simp only [infer_mau, h, pyOr_vnone]
      rfl
    · simp only [infer_mau, hs, pyOr_vstr, hp]
  have hmom' : infer_growth nm = 0.10 := by
    rcases hmom with h | ⟨s, hs, hp⟩
    · simp only [infer_growth, h, pyOr_vnone]
      rfl
    · simp only [infer_growth, hs, pyOr_vstr]
      by_cases hc : s.contains '%'
      · simp only [hc, if_true, hp hc]
      · simp only [hc]
        rfl
  have hcac : infer_cac nm = 150.0 := by
    simp only [infer_cac, hmau']
  have harpu : infer_arpu nm = 250.0 := by
    simp only [infer_arpu, hmau']
  simp only [infer_inputs, hrev', hmom', hmau', hcac, harpu]

/-- Witness for C7: the empty metrics bag. -/
theorem claim_C7_witness :
    infer_inputs (fun _ => PVal.vnone) =
      { revenue_monthly := 100000.0, growth_monthly := 0.10, mau := none,
        gross_margin := 0.25, cac := 150.0, churn_monthly := 0.05,
        fixed_monthly_costs := 800000.0, arpu_monthly := 250.0 } :=
  claim_C7_fallbacks (fun _ => PVal.vnone) (Or.inl rfl) (Or.inl rfl) (Or.inl rfl)

/-- C8: the money parser on the spec's concrete scenarios: `"₹1.5L"` parses
to `150000.0`, `"2.3M"` to `2300000.0`, `"1.1b"` to `1.1e9 = 1100000000.0`;
the `m` rule is suppressed when `lakh` is present; thousand separators and
currency markers are stripped; unparsable inputs give `None`. -/
theorem claim_C8_money_parse :
    _parse_money_to_float (PVal.vstr "₹1.5L".toList) = some 150000 ∧
    _parse_money_to_float (PVal.vstr "2.3M".toList) = some 2300000 ∧
    _parse_money_to_float (PVal.vstr "1.1b".toList) = some 1100000000 ∧
    _parse_money_to_float (PVal.vstr "5m lakh".toList) = some 500000 ∧
    _parse_money_to_float (PVal.vstr "Rs 2,500".toList) = some 2500 ∧
    _parse_money_to_float (PVal.vstr "hello".toList) = none ∧
    _parse_money_to_float (PVal.vstr "".toList) = none := by
  decide

/-- The metrics bag whose growth field holds the integer `0`. -/
def bagGrowthZero : String → PVal :=
  fun k => if k = "Month-over-month growth" then PVal.vint 0 else PVal.vnone

/-- C9 counterexample: for the numeric growth value `0` the code does NOT
use it directly: the `or ""` default coerces the falsy `0` to `""` and the
inferred growth is the fallback `0.10`, not `0`. -/
theorem claim_C9_cex :
    (infer_inputs bagGrowthZero).growth_monthly = 0.10 ∧ (0.10 : ℚ) ≠ 0 := by
  decide

/-- C9 (amended): the inferred growth is: a parsing percentage string
divided by 100; a truthy (nonzero) numeric value used directly; and the
fallback `0.10` in every other case — including the falsy numerics `0` and
`0.0`, which the `or ""` default coerces to the empty string. -/
theorem claim_C9_growth_rule (nm : String → PVal) :
    (∀ s x, nm "Month-over-month growth" = PVal.vstr s → s.contains '%' = true →
      pyFloatChars (s.filter (fun c => c != '%')) = some x →
      (infer_inputs nm).growth_monthly = x / 100) ∧
    (∀ s, nm "Month-over-month growth" = PVal.vstr s → s.contains '%' = true →
      pyFloatChars (s.filter (fun c => c != '%')) = none →
      (infer_inputs nm).growth_monthly = 0.10) ∧
    (∀ s, nm "Month-over-month growth" = PVal.vstr s → s.contains '%' = false →
      (infer_inputs nm).growth_monthly = 0.10) ∧
    (∀ n : ℤ, nm "Month-over-month growth" = PVal.vint n → n ≠ 0 →
      (infer_inputs nm).growth_monthly = (n : ℚ)) ∧
    (∀ q : ℚ, nm "Month-over-month growth" = PVal.vfloat q → q ≠ 0 →
      (infer_inputs nm).growth_monthly = q) ∧
    (nm "Month-over-month growth" = PVal.vnone →
      (infer_inputs nm).growth_monthly = 0.10) ∧
    (nm "Month-over-month growth" = PVal.vint 0 →
      (infer_inputs nm).growth_monthly = 0.10) ∧
    (nm "Month-over-month growth" = PVal.vfloat 0 →
      (infer_inputs nm).growth_monthly = 0.10) := by
  have hproj : (infer_inputs nm).growth_monthly = infer_growth nm := rfl
  refine ⟨?_, ?_, ?_, ?_, ?_, ?_, ?_, ?_⟩
  · intro s x h hc hp
    rw [hproj]
    simp only [infer_growth, h, pyOr_vstr, hc, if_true, hp]
  · intro s h hc hp
    rw [hproj]
    simp only [infer_growth, h, pyOr_vstr, hc, if_true, hp]
  · intro s h hc
    rw [hproj]
    simp only [infer_growth, h, pyOr_vstr, hc]
    rfl
  · intro n h hn
    rw [hproj]
    have ht : (n != 0) = true := by simpa using hn
    simp only [infer_growth, h, pyOr, PVal.truthy, ht]
    rfl
  · intro q h hq
    rw [hproj]
    have ht : (q != 0) = true := by simpa using hq
    simp only [infer_growth, h, pyOr, PVal.truthy, ht]
    rfl
  · intro h
    rw [hproj]
    simp only [infer_growth, h, pyOr_vnone]
    rfl
  · intro h
    rw [hproj]
    simp only [infer_growth, h, pyOr, PVal.truthy]
    rfl
  · intro h
    rw [hproj]
    simp only [infer_growth, h, pyOr, PVal.truthy]
    rfl

/-- The metrics bag whose growth field holds the string `"15%"`. -/
def bagGrowthPct : String → PVal :=
  fun k => if k = "Month-over-month growth" then PVal.vstr ['1', '5', '%'] else PVal.vnone

/-- Witness for C9 (amended): `"15%"` infers growth `0.15`. -/
theorem claim_C9_witness :
    (infer_inputs bagGrowthPct).growth_monthly = 15 / 100 :=
  (claim_C9_growth_rule bagGrowthPct).1 ['1', '5', '%'] 15 (by decide) (by decide) (by decide)

/-- C10: the `cac_ltv` record is computed from the shared inputs only and is
identical across the three scenarios of a run. -/
theorem claim_C10_cac_ltv_shared (inputs : Inputs) (months : ℕ)
    (out : RunOutput) (hout : out = run inputs months) :
    out.scenarios.conservative.cac_ltv =
      cac_ltv inputs.cac inputs.arpu_monthly inputs.gross_margin inputs.churn_monthly ∧
    out.scenarios.base.cac_ltv =
      cac_ltv inputs.cac inputs.arpu_monthly inputs.gross_margin inputs.churn_monthly ∧
    out.scenarios.optimistic.cac_ltv =
      cac_ltv inputs.cac inputs.arpu_monthly inputs.gross_margin inputs.churn_monthly ∧
    out.scenarios.conservative.cac_ltv = out.scenarios.base.cac_ltv ∧
    out.scenarios.base.cac_ltv = out.scenarios.optimistic.cac_ltv := by
  subst hout
  exact ⟨rfl, rfl, rfl, rfl, rfl⟩

/-- Witness for C10 on concrete inputs. -/
theorem claim_C10_witness :
    (run ⟨100000, 1/10, none, 1/4, 150, 1/20, 800000, 250⟩ 24).scenarios.conservative.cac_ltv =
      (run ⟨100000, 1/10, none, 1/4, 150, 1/20, 800000, 250⟩ 24).scenarios.base.cac_ltv := by
  exact (claim_C10_cac_ltv_shared ⟨100000, 1/10, none, 1/4, 150, 1/20, 800000, 250⟩
    24 _ rfl).2.2.2.1

end VentureValuator
